import Mathlib

/-!
Shallow embedding of the news-and-topic HTTP service (`main.go`).

The service is a CRUD layer over two relational tables, `topics` and
`news`.  We model the persistent store as lists of rows together with the
serial counters and the server clock; each HTTP handler of `main.go`
becomes a Lean function from the store and the request data to a
response paired with the successor store.  Database connectivity failures
are not modelled (every SQL statement executes); the unique constraint on
`topics.name` is modelled, since an insert violating it fails.
-/

namespace NewsApi

/-- A row of the `topics` table (`Topic` in `main.go`). -/
structure Topic where
  id : Nat
  name : String
  description : String
  created_at : Nat
  updated_at : Nat
deriving DecidableEq

/-- A row of the `news` table (`News` in `main.go`). -/
structure News where
  id : Nat
  title : String
  content : String
  topic_id : Nat
  created_at : Nat
  updated_at : Nat
deriving DecidableEq

/-- The persistent store: the two tables, the serial id counters, and the
server clock (the value `NOW()` returns during a request). -/
structure DB where
  topics : List Topic
  news : List News
  nextTopicId : Nat
  nextNewsId : Nat
  now : Nat
deriving DecidableEq

/-- JSON response bodies produced by the handlers. -/
inductive Body where
  | topic : Topic → Body
  | topicList : List Topic → Body
  | newsItem : News → Body
  | newsList : List News → Body
  | message : String → Body
deriving DecidableEq

/-- An HTTP response: status code and JSON body. -/
structure Response where
  status : Nat
  body : Body
deriving DecidableEq

/-- Modelled from the spec: how the SQL layer reads the textual path
parameter (`c.Param("id")`, passed verbatim as a query argument) before
comparing it with an integer id column.  A string of decimal digits
denotes that number; anything else is malformed.  The engine behind the
driver is outside this repository, so this parse follows the spec's
words. -/
def parseNat (s : String) : Option Nat :=
  if s.data.isEmpty || !s.data.all (fun c => c.isDigit) then none
  else some (s.data.foldl (fun n c => n * 10 + (c.toNat - 48)) 0)

/-- Modelled from the spec: the comparison of the textual path parameter
with an integer id column.  The spec records the observed behavior: a
parameter denoting an integer matches rows with that id, and a malformed
(non-numeric) parameter simply matches no row. -/
def idMatches (s : String) (rowId : Nat) : Bool :=
  parseNat s == some rowId

/-- `SELECT EXISTS(SELECT 1 FROM topics WHERE id = $1)` with an integer
payload field as argument. -/
def topicExists (db : DB) (tid : Nat) : Bool :=
  db.topics.any (fun t => t.id == tid)

/-- `ORDER BY name` on topics: ascending by `name`. -/
def topicNameLe (a b : Topic) : Prop := a.name ≤ b.name

instance : DecidableRel topicNameLe :=
  fun a b => inferInstanceAs (Decidable (a.name ≤ b.name))

instance : IsTotal Topic topicNameLe := ⟨fun a b => le_total a.name b.name⟩

instance : IsTrans Topic topicNameLe := ⟨fun _ _ _ h h2 => le_trans h h2⟩

/-- `ORDER BY created_at DESC` on news: descending by `created_at`. -/
def newsCreatedGe (a b : News) : Prop := b.created_at ≤ a.created_at

instance : DecidableRel newsCreatedGe :=
  fun a b => inferInstanceAs (Decidable (b.created_at ≤ a.created_at))

instance : IsTotal News newsCreatedGe := ⟨fun a b => le_total b.created_at a.created_at⟩

instance : IsTrans News newsCreatedGe := ⟨fun _ _ _ h h2 => le_trans h2 h⟩

/-- `getAllNews`: `SELECT … FROM news ORDER BY created_at DESC`, 200. -/
def getAllNews (db : DB) : Response × DB :=
  (⟨200, .newsList (List.insertionSort newsCreatedGe db.news)⟩, db)

/-- `getNewsById`: single-row lookup by the path parameter; `sql.ErrNoRows`
becomes 404, otherwise 200 with the row. -/
def getNewsById (db : DB) (id : String) : Response × DB :=
  match db.news.find? (fun n => idMatches id n.id) with
  | none => (⟨404, .message "News not found"⟩, db)
  | some n => (⟨200, .newsItem n⟩, db)

/-- `createNews`: requires non-empty title and content (400 otherwise),
verifies the payload `topic_id` exists (400 otherwise), then inserts the
row stamped with `NOW()` for both timestamps and returns 201. -/
def createNews (db : DB) (title content : String) (tid : Nat) : Response × DB :=
  if title == "" || content == "" then
    (⟨400, .message "Title and content are required"⟩, db)
  else if !topicExists db tid then
    (⟨400, .message "Topic does not exist"⟩, db)
  else
    let n : News := ⟨db.nextNewsId, title, content, tid, db.now, db.now⟩
    (⟨201, .newsItem n⟩,
      { db with news := db.news ++ [n], nextNewsId := db.nextNewsId + 1 })

/-- `updateNews`: same payload validation and topic-existence check as
`createNews`, then `UPDATE news … WHERE id = $4`; zero rows affected is
404, otherwise the row is re-read and returned with 200. -/
def updateNews (db : DB) (id : String) (title content : String) (tid : Nat) :
    Response × DB :=
  if title == "" || content == "" then
    (⟨400, .message "Title and content are required"⟩, db)
  else if !topicExists db tid then
    (⟨400, .message "Topic does not exist"⟩, db)
  else
    let affected := db.news.countP (fun n => idMatches id n.id)
    if affected == 0 then
      (⟨404, .message "News not found"⟩, db)
    else
      let updated := db.news.map (fun n =>
        if idMatches id n.id then
          { n with title := title, content := content, topic_id := tid,
                   updated_at := db.now }
        else n)
      let db2 := { db with news := updated }
      match updated.find? (fun n => idMatches id n.id) with
      | none => (⟨500, .message "Failed to fetch updated news"⟩, db2)
      | some n => (⟨200, .newsItem n⟩, db2)

/-- `deleteNews`: `DELETE FROM news WHERE id = $1`; zero rows affected is
404, otherwise 200 with a confirmation message. -/
def deleteNews (db : DB) (id : String) : Response × DB :=
  let affected := db.news.countP (fun n => idMatches id n.id)
  let db2 := { db with news := db.news.filter (fun n => !idMatches id n.id) }
  if affected == 0 then
    (⟨404, .message "News not found"⟩, db2)
  else
    (⟨200, .message "News deleted successfully"⟩, db2)

/-- `getNewsByTopic`: `SELECT … FROM news WHERE topic_id = $1 ORDER BY
created_at DESC`; no existence check on the topic, always 200. -/
def getNewsByTopic (db : DB) (topicID : String) : Response × DB :=
  (⟨200, .newsList (List.insertionSort newsCreatedGe
      (db.news.filter (fun n => idMatches topicID n.topic_id)))⟩, db)

/-- `getAllTopics`: `SELECT … FROM topics ORDER BY name`, 200. -/
def getAllTopics (db : DB) : Response × DB :=
  (⟨200, .topicList (List.insertionSort topicNameLe db.topics)⟩, db)

/-- `getTopicById`: single-row lookup by the path parameter; 404 when no
row matches, otherwise 200 with the row. -/
def getTopicById (db : DB) (id : String) : Response × DB :=
  match db.topics.find? (fun t => idMatches id t.id) with
  | none => (⟨404, .message "Topic not found"⟩, db)
  | some t => (⟨200, .topic t⟩, db)

/-- `createTopic`: requires non-empty name (400 otherwise), then inserts
the row stamped with `NOW()` for both timestamps and returns 201 with the
generated id.  An insert whose name collides with an existing topic
violates the `UNIQUE` constraint of the schema and surfaces as 500. -/
def createTopic (db : DB) (name description : String) : Response × DB :=
  if name == "" then
    (⟨400, .message "Topic name is required"⟩, db)
  else if db.topics.any (fun t => t.name == name) then
    (⟨500, .message "Failed to create topic"⟩, db)
  else
    let t : Topic := ⟨db.nextTopicId, name, description, db.now, db.now⟩
    (⟨201, .topic t⟩,
      { db with topics := db.topics ++ [t], nextTopicId := db.nextTopicId + 1 })

/-- `updateTopic`: requires non-empty name (400 otherwise), then
`UPDATE topics … WHERE id = $3`; zero rows affected is 404, otherwise the
row is re-read and returned with 200. -/
def updateTopic (db : DB) (id : String) (name description : String) :
    Response × DB :=
  if name == "" then
    (⟨400, .message "Topic name is required"⟩, db)
  else
    let affected := db.topics.countP (fun t => idMatches id t.id)
    if affected == 0 then
      (⟨404, .message "Topic not found"⟩, db)
    else
      let updated := db.topics.map (fun t =>
        if idMatches id t.id then
          { t with name := name, description := description,
                   updated_at := db.now }
        else t)
      let db2 := { db with topics := updated }
      match updated.find? (fun t => idMatches id t.id) with
      | none => (⟨500, .message "Failed to fetch updated topic"⟩, db2)
      | some t => (⟨200, .topic t⟩, db2)

/-- `deleteTopic`: first counts news rows referencing the topic; a positive
count is refused with 409 and nothing is deleted.  Otherwise
`DELETE FROM topics WHERE id = $1`; zero rows affected is 404, else 200. -/
def deleteTopic (db : DB) (id : String) : Response × DB :=
  let count := db.news.countP (fun n => idMatches id n.topic_id)
  if count > 0 then
    (⟨409, .message "Cannot delete topic with associated news articles"⟩, db)
  else
    let affected := db.topics.countP (fun t => idMatches id t.id)
    let db2 := { db with topics := db.topics.filter (fun t => !idMatches id t.id) }
    if affected == 0 then
      (⟨404, .message "Topic not found"⟩, db2)
    else
      (⟨200, .message "Topic deleted successfully"⟩, db2)

/-- The store right after `createTables`: both tables empty, serial
counters at 1. -/
def initDB : DB := ⟨[], [], 1, 1, 0⟩

/-- One observable transition of the service: the server clock advancing,
or any handler running on arbitrary request data. -/
inductive Step : DB → DB → Prop where
  | tick (db : DB) (t : Nat) (h : db.now ≤ t) : Step db { db with now := t }
  | allNews (db : DB) : Step db (getAllNews db).2
  | newsById (db : DB) (id : String) : Step db (getNewsById db id).2
  | newsCreate (db : DB) (title content : String) (tid : Nat) :
      Step db (createNews db title content tid).2
  | newsUpdate (db : DB) (id title content : String) (tid : Nat) :
      Step db (updateNews db id title content tid).2
  | newsDelete (db : DB) (id : String) : Step db (deleteNews db id).2
  | newsByTopic (db : DB) (topicID : String) : Step db (getNewsByTopic db topicID).2
  | allTopics (db : DB) : Step db (getAllTopics db).2
  | topicById (db : DB) (id : String) : Step db (getTopicById db id).2
  | topicCreate (db : DB) (name description : String) :
      Step db (createTopic db name description).2
  | topicUpdate (db : DB) (id name description : String) :
      Step db (updateTopic db id name description).2
  | topicDelete (db : DB) (id : String) : Step db (deleteTopic db id).2

/-- States the service can be in: the empty store, extended by steps. -/
inductive Reachable : DB → Prop where
  | init : Reachable initDB
  | step {db db' : DB} : Reachable db → Step db db' → Reachable db'

/-- The invariant maintained across requests: every news row references an
existing topic, and no stored timestamp is in the future. -/
def Inv (db : DB) : Prop :=
  (∀ n ∈ db.news, ∃ t ∈ db.topics, t.id = n.topic_id) ∧
  (∀ t ∈ db.topics, t.created_at ≤ db.now ∧ t.updated_at ≤ db.now) ∧
  (∀ n ∈ db.news, n.created_at ≤ db.now ∧ n.updated_at ≤ db.now)

lemma getAllNews_snd (db : DB) : (getAllNews db).2 = db := rfl

lemma getNewsById_snd (db : DB) (id : String) : (getNewsById db id).2 = db := by
  unfold getNewsById
  cases db.news.find? (fun n => idMatches id n.id) <;> rfl

lemma getNewsByTopic_snd (db : DB) (topicID : String) :
    (getNewsByTopic db topicID).2 = db := rfl

lemma getAllTopics_snd (db : DB) : (getAllTopics db).2 = db := rfl

lemma getTopicById_snd (db : DB) (id : String) : (getTopicById db id).2 = db := by
  unfold getTopicById
  cases db.topics.find? (fun t => idMatches id t.id) <;> rfl

lemma topicExists_spec {db : DB} {tid : Nat} (h : topicExists db tid = true) :
    ∃ t ∈ db.topics, t.id = tid := by
  rcases List.any_eq_true.mp h with ⟨t, ht, hid⟩
  exact ⟨t, ht, by simpa using hid⟩

lemma inv_tick {db : DB} {t : Nat} (hinv : Inv db) (h : db.now ≤ t) :
    Inv { db with now := t } := by
  obtain ⟨h1, h2, h3⟩ := hinv
  refine ⟨h1, fun x hx => ?_, fun x hx => ?_⟩
  · exact ⟨le_trans (h2 x hx).1 h, le_trans (h2 x hx).2 h⟩
  · exact ⟨le_trans (h3 x hx).1 h, le_trans (h3 x hx).2 h⟩

lemma inv_createTopic {db : DB} (hinv : Inv db) (name description : String) :
    Inv (createTopic db name description).2 := by
  obtain ⟨h1, h2, h3⟩ := hinv
  unfold createTopic
  split
  · exact ⟨h1, h2, h3⟩
  split
  · exact ⟨h1, h2, h3⟩
  refine ⟨fun n hn => ?_, fun t ht => ?_, h3⟩
  · rcases h1 n hn with ⟨t, ht, hid⟩
    exact ⟨t, List.mem_append_left _ ht, hid⟩
  · rcases List.mem_append.mp ht with h | h
    · exact h2 t h
    · simp only [List.mem_singleton] at h
      subst h
      exact ⟨le_refl _, le_refl _⟩

lemma inv_createNews {db : DB} (hinv : Inv db) (title content : String) (tid : Nat) :
    Inv (createNews db title content tid).2 := by
  obtain ⟨h1, h2, h3⟩ := hinv
  unfold createNews
  split
  · exact ⟨h1, h2, h3⟩
  split
  · exact ⟨h1, h2, h3⟩
  next hex =>
  refine ⟨fun n hn => ?_, h2, fun n hn => ?_⟩
  · rcases List.mem_append.mp hn with h | h
    · exact h1 n h
    · simp only [List.mem_singleton] at h
      subst h
      exact topicExists_spec (by simpa using hex)
  · rcases List.mem_append.mp hn with h | h
    · exact h3 n h
    · simp only [List.mem_singleton] at h
      subst h
      exact ⟨le_refl _, le_refl _⟩

lemma inv_updateNews {db : DB} (hinv : Inv db) (id title content : String) (tid : Nat) :
    Inv (updateNews db id title content tid).2 := by
  obtain ⟨h1, h2, h3⟩ := hinv
  unfold updateNews
  split
  · exact ⟨h1, h2, h3⟩
  split
  · exact ⟨h1, h2, h3⟩
  next hex =>
  dsimp only
  split
  · exact ⟨h1, h2, h3⟩
  have hnew : Inv { db with news := db.news.map (fun n =>
      if idMatches id n.id then
        { n with title := title, content := content, topic_id := tid,
                 updated_at := db.now }
      else n) } := by
    refine ⟨fun n hn => ?_, h2, fun n hn => ?_⟩
    · rcases List.mem_map.mp hn with ⟨m, hm, hf⟩
      by_cases hmatch : idMatches id m.id
      · simp only [hmatch, if_pos] at hf
        subst hf
        exact topicExists_spec (by simpa using hex)
      · simp only [hmatch, if_neg, Bool.false_eq_true, reduceIte] at hf
        subst hf
        exact h1 m hm
    · rcases List.mem_map.mp hn with ⟨m, hm, hf⟩
      by_cases hmatch : idMatches id m.id
      · simp only [hmatch, if_pos] at hf
        subst hf
        exact ⟨(h3 m hm).1, le_refl _⟩
      · simp only [hmatch, if_neg, Bool.false_eq_true, reduceIte] at hf
        subst hf
        exact h3 m hm
  split <;> exact hnew

lemma inv_deleteNews {db : DB} (hinv : Inv db) (id : String) :
    Inv (deleteNews db id).2 := by
  obtain ⟨h1, h2, h3⟩ := hinv
  have hnew : Inv { db with news := db.news.filter (fun n => !idMatches id n.id) } :=
    ⟨fun n hn => h1 n (List.mem_of_mem_filter hn), h2,
     fun n hn => h3 n (List.mem_of_mem_filter hn)⟩
  unfold deleteNews
  dsimp only
  split <;> exact hnew

lemma inv_updateTopic {db : DB} (hinv : Inv db) (id name description : String) :
    Inv (updateTopic db id name description).2 := by
  obtain ⟨h1, h2, h3⟩ := hinv
  unfold updateTopic
  split
  · exact ⟨h1, h2, h3⟩
  dsimp only
  split
  · exact ⟨h1, h2, h3⟩
  have hnew : Inv { db with topics := db.topics.map (fun t =>
      if idMatches id t.id then
        { t with name := name, description := description, updated_at := db.now }
      else t) } := by
    refine ⟨fun n hn => ?_, fun t ht => ?_, h3⟩
    · rcases h1 n hn with ⟨t, ht, hid⟩
      refine ⟨if idMatches id t.id then
          { t with name := name, description := description, updated_at := db.now }
        else t, List.mem_map_of_mem _ ht, ?_⟩
      have hpres : (if idMatches id t.id then
          { t with name := name, description := description, updated_at := db.now }
        else t).id = t.id := by
        by_cases hmatch : idMatches id t.id <;> simp [hmatch]
      rw [hpres]
      exact hid
    · rcases List.mem_map.mp ht with ⟨m, hm, hf⟩
      by_cases hmatch : idMatches id m.id
      · simp only [hmatch, if_pos] at hf
        subst hf
        exact ⟨(h2 m hm).1, le_refl _⟩
      · simp only [hmatch, if_neg, Bool.false_eq_true, reduceIte] at hf
        subst hf
        exact h2 m hm
  split <;> exact hnew

lemma inv_deleteTopic {db : DB} (hinv : Inv db) (id : String) :
    Inv (deleteTopic db id).2 := by
  obtain ⟨h1, h2, h3⟩ := hinv
  unfold deleteTopic
  dsimp only
  split
  · exact ⟨h1, h2, h3⟩
  next hcount =>
  have hzero : db.news.countP (fun n => idMatches id n.topic_id) = 0 :=
    Nat.eq_zero_of_not_pos hcount
  have hnoref : ∀ n ∈ db.news, ¬ idMatches id n.topic_id := by
    intro n hn
    exact by simpa using (List.countP_eq_zero.mp hzero) n hn
  have hnew : Inv { db with
      topics := db.topics.filter (fun t => !idMatches id t.id) } := by
    refine ⟨fun n hn => ?_, fun t ht => h2 t (List.mem_of_mem_filter ht), h3⟩
    rcases h1 n hn with ⟨t, ht, hid⟩
    refine ⟨t, List.mem_filter.mpr ⟨ht, ?_⟩, hid⟩
    have : ¬ idMatches id t.id := by
      rw [hid]
      exact hnoref n hn
    simpa using this
  split <;> exact hnew

lemma inv_step {db db' : DB} (hinv : Inv db) (h : Step db db') : Inv db' := by
  cases h with
  | tick t ht => exact inv_tick hinv ht
  | allNews => rwa [getAllNews_snd]
  | newsById id => rwa [getNewsById_snd]
  | newsCreate title content tid => exact inv_createNews hinv title content tid
  | newsUpdate id title content tid => exact inv_updateNews hinv id title content tid
  | newsDelete id => exact inv_deleteNews hinv id
  | newsByTopic topicID => rwa [getNewsByTopic_snd]
  | allTopics => rwa [getAllTopics_snd]
  | topicById id => rwa [getTopicById_snd]
  | topicCreate name description => exact inv_createTopic hinv name description
  | topicUpdate id name description => exact inv_updateTopic hinv id name description
  | topicDelete id => exact inv_deleteTopic hinv id

lemma inv_init : Inv initDB := by
  refine ⟨?_, ?_, ?_⟩ <;> intro x hx <;> simp [initDB] at hx

lemma reachable_inv {db : DB} (h : Reachable db) : Inv db := by
  induction h with
  | init => exact inv_init
  | step _ hstep ih => exact inv_step ih hstep

lemma countP_bne_zero {α : Type} {p : α → Bool} {l : List α} {a : α}
    (ha : a ∈ l) (hp : p a = true) : (l.countP p == 0) = false :=
  beq_eq_false_iff_ne.mpr (Nat.pos_iff_ne_zero.mp (List.countP_pos_iff.mpr ⟨a, ha, hp⟩))

/-- C1: in every reachable state every news row's `topic_id` names an
existing topic; `createNews` and `updateNews` answer 400 without writing
when the payload `topic_id` matches no topic, and `deleteTopic` refuses
with 409, store untouched, when any news row references the topic. -/
theorem news_topic_integrity :
    (∀ db : DB, Reachable db → ∀ n ∈ db.news, ∃ t ∈ db.topics, t.id = n.topic_id) ∧
    (∀ (db : DB) (title content : String) (tid : Nat), topicExists db tid = false →
      (createNews db title content tid).1.status = 400 ∧
      (createNews db title content tid).2 = db) ∧
    (∀ (db : DB) (id title content : String) (tid : Nat), topicExists db tid = false →
      (updateNews db id title content tid).1.status = 400 ∧
      (updateNews db id title content tid).2 = db) ∧
    (∀ (db : DB) (id : String), (∃ n ∈ db.news, idMatches id n.topic_id) →
      (deleteTopic db id).1.status = 409 ∧ (deleteTopic db id).2 = db) := by
  refine ⟨fun db h => (reachable_inv h).1, ?_, ?_, ?_⟩
  · intro db title content tid h
    unfold createNews
    split
    · exact ⟨rfl, rfl⟩
    · rw [h]
      exact ⟨rfl, rfl⟩
  · intro db id title content tid h
    unfold updateNews
    split
    · exact ⟨rfl, rfl⟩
    · rw [h]
      exact ⟨rfl, rfl⟩
  · intro db id h
    rcases h with ⟨n, hn, hmatch⟩
    have hpos : 0 < db.news.countP (fun n => idMatches id n.topic_id) :=
      List.countP_pos_iff.mpr ⟨n, hn, hmatch⟩
    unfold deleteTopic
    dsimp only
    rw [if_pos hpos]
    exact ⟨rfl, rfl⟩

theorem news_topic_integrity_witness :
    (∃ t ∈ (createNews (createTopic initDB "Science" "S").2 "A" "B" 1).2.topics,
        t.id = (⟨1, "A", "B", 1, 0, 0⟩ : News).topic_id) ∧
    (createNews initDB "A" "B" 5).1.status = 400 ∧
    (updateNews initDB "1" "A" "B" 5).1.status = 400 ∧
    (deleteTopic (createNews (createTopic initDB "Science" "S").2 "A" "B" 1).2
        "1").1.status = 409 := by
  refine ⟨?_, ?_, ?_, ?_⟩
  · exact news_topic_integrity.1 _
      (Reachable.step (Reachable.step Reachable.init
        (Step.topicCreate initDB "Science" "S"))
        (Step.newsCreate _ "A" "B" 1))
      ⟨1, "A", "B", 1, 0, 0⟩ (by decide)
  · exact (news_topic_integrity.2.1 initDB "A" "B" 5 (by decide)).1
  · exact (news_topic_integrity.2.2.1 initDB "1" "A" "B" 5 (by decide)).1
  · exact (news_topic_integrity.2.2.2 _ "1"
      ⟨⟨1, "A", "B", 1, 0, 0⟩, by decide, by decide⟩).1

/-- C2: deleting a topic that still has a dependent news row answers 409
and returns the store unchanged: the topic row and every news row
survive, and no delete reaches the tables. -/
theorem deleteTopic_conflict_unchanged (db : DB) (id : String) (tid : Nat)
    (hid : parseNat id = some tid) (h : ∃ n ∈ db.news, n.topic_id = tid) :
    deleteTopic db id =
      (⟨409, .message "Cannot delete topic with associated news articles"⟩, db) := by
  rcases h with ⟨n, hn, htid⟩
  have hmatch : idMatches id n.topic_id = true := by
    simp [idMatches, hid, htid]
  have hpos : 0 < db.news.countP (fun n => idMatches id n.topic_id) :=
    List.countP_pos_iff.mpr ⟨n, hn, hmatch⟩
  unfold deleteTopic
  dsimp only
  rw [if_pos hpos]

theorem deleteTopic_conflict_unchanged_witness :
    deleteTopic ⟨[⟨7, "T", "", 0, 0⟩], [⟨1, "A", "B", 7, 0, 0⟩], 8, 2, 0⟩ "7" =
      (⟨409, .message "Cannot delete topic with associated news articles"⟩,
       ⟨[⟨7, "T", "", 0, 0⟩], [⟨1, "A", "B", 7, 0, 0⟩], 8, 2, 0⟩) :=
  deleteTopic_conflict_unchanged _ "7" 7 (by decide)
    ⟨⟨1, "A", "B", 7, 0, 0⟩, by decide, by decide⟩

/-- C3: a malformed (non-numeric) path id on get-topic-by-id or
get-news-by-id is answered 404 exactly like a well-formed id matching no
row, and such lookups are never answered 400. -/
theorem malformed_id_yields_404 :
    (∀ (db : DB) (id : String), parseNat id = none →
      getTopicById db id = (⟨404, .message "Topic not found"⟩, db) ∧
      getNewsById db id = (⟨404, .message "News not found"⟩, db)) ∧
    (∀ (db : DB) (id : String) (tid : Nat), parseNat id = some tid →
      (∀ t ∈ db.topics, t.id ≠ tid) →
      getTopicById db id = (⟨404, .message "Topic not found"⟩, db)) ∧
    (∀ (db : DB) (id : String) (nid : Nat), parseNat id = some nid →
      (∀ n ∈ db.news, n.id ≠ nid) →
      getNewsById db id = (⟨404, .message "News not found"⟩, db)) ∧
    (∀ (db : DB) (id : String),
      (getTopicById db id).1.status ≠ 400 ∧ (getNewsById db id).1.status ≠ 400) := by
  refine ⟨?_, ?_, ?_, ?_⟩
  · intro db id hnone
    have hft : db.topics.find? (fun t => idMatches id t.id) = none :=
      List.find?_eq_none.mpr (fun t _ => by simp [idMatches, hnone])
    have hfn : db.news.find? (fun n => idMatches id n.id) = none :=
      List.find?_eq_none.mpr (fun n _ => by simp [idMatches, hnone])
    constructor
    · unfold getTopicById
      rw [hft]
    · unfold getNewsById
      rw [hfn]
  · intro db id tid hid hne
    have hft : db.topics.find? (fun t => idMatches id t.id) = none := by
      refine List.find?_eq_none.mpr (fun t ht => ?_)
      simp only [idMatches, hid, beq_iff_eq, Option.some.injEq]
      exact fun heq => hne t ht heq.symm
    unfold getTopicById
    rw [hft]
  · intro db id nid hid hne
    have hfn : db.news.find? (fun n => idMatches id n.id) = none := by
      refine List.find?_eq_none.mpr (fun n hn => ?_)
      simp only [idMatches, hid, beq_iff_eq, Option.some.injEq]
      exact fun heq => hne n hn heq.symm
    unfold getNewsById
    rw [hfn]
  · intro db id
    constructor
    · unfold getTopicById
      cases db.topics.find? (fun t => idMatches id t.id) <;> simp
    · unfold getNewsById
      cases db.news.find? (fun n => idMatches id n.id) <;> simp

theorem malformed_id_yields_404_witness :
    getTopicById initDB "abc" = (⟨404, .message "Topic not found"⟩, initDB) ∧
    getNewsById initDB "abc" = (⟨404, .message "News not found"⟩, initDB) ∧
    getTopicById (createTopic initDB "T" "").2 "9" =
      (⟨404, .message "Topic not found"⟩, (createTopic initDB "T" "").2) ∧
    getNewsById initDB "9" = (⟨404, .message "News not found"⟩, initDB) := by
  refine ⟨?_, ?_, ?_, ?_⟩
  · exact (malformed_id_yields_404.1 initDB "abc" (by decide)).1
  · exact (malformed_id_yields_404.1 initDB "abc" (by decide)).2
  · exact malformed_id_yields_404.2.1 _ "9" 9 (by decide) (by decide)
  · exact malformed_id_yields_404.2.2.1 initDB "9" 9 (by decide) (by decide)

/-- C4: creating a topic with an empty (or absent, which decodes to empty)
`name` answers 400 and inserts no row. -/
theorem createTopic_empty_name (db : DB) (description : String) :
    createTopic db "" description = (⟨400, .message "Topic name is required"⟩, db) := rfl

/-- C5: create-news rejects an empty title or content with 400 and no
insert, rejects an unknown `topic_id` with 400 and no insert, and only a
request passing both checks reaches the insert, which appends the stamped
row and answers 201. -/
theorem createNews_validation :
    (∀ (db : DB) (title content : String) (tid : Nat), title = "" ∨ content = "" →
      createNews db title content tid =
        (⟨400, .message "Title and content are required"⟩, db)) ∧
    (∀ (db : DB) (title content : String) (tid : Nat), topicExists db tid = false →
      (createNews db title content tid).1.status = 400 ∧
      (createNews db title content tid).2 = db) ∧
    (∀ (db : DB) (title content : String) (tid : Nat),
      title ≠ "" → content ≠ "" → topicExists db tid = true →
      createNews db title content tid =
        (⟨201, .newsItem ⟨db.nextNewsId, title, content, tid, db.now, db.now⟩⟩,
         { db with
            news := db.news ++ [⟨db.nextNewsId, title, content, tid, db.now, db.now⟩],
            nextNewsId := db.nextNewsId + 1 })) := by
  refine ⟨?_, ?_, ?_⟩
  · intro db title content tid h
    unfold createNews
    rcases h with h | h <;> subst h <;> simp
  · intro db title content tid h
    unfold createNews
    split
    · exact ⟨rfl, rfl⟩
    · rw [h]
      exact ⟨rfl, rfl⟩
  · intro db title content tid ht hc hex
    unfold createNews
    rw [beq_eq_false_iff_ne.mpr ht, beq_eq_false_iff_ne.mpr hc, hex]
    rfl

theorem createNews_validation_witness :
    createNews initDB "" "B" 1 =
      (⟨400, .message "Title and content are required"⟩, initDB) ∧
    (createNews initDB "A" "B" 1).1.status = 400 ∧
    createNews (createTopic initDB "T" "").2 "A" "B" 1 =
      (⟨201, .newsItem ⟨1, "A", "B", 1, 0, 0⟩⟩,
       ⟨[⟨1, "T", "", 0, 0⟩], [⟨1, "A", "B", 1, 0, 0⟩], 2, 2, 0⟩) := by
  refine ⟨?_, ?_, ?_⟩
  · exact createNews_validation.1 initDB "" "B" 1 (Or.inl rfl)
  · exact (createNews_validation.2.1 initDB "A" "B" 1 (by decide)).1
  · exact createNews_validation.2.2 _ "A" "B" 1 (by decide) (by decide) (by decide)

/-- C6: listing topics answers 200 with exactly the stored topic rows
sorted by name ascending, and reads nothing else; an empty store yields
200 with the empty list. -/
theorem getAllTopics_sorted (db : DB) :
    ((getAllTopics db).1.status = 200 ∧ (getAllTopics db).2 = db ∧
     ∃ l, (getAllTopics db).1.body = .topicList l ∧
       l.Perm db.topics ∧ l.Sorted topicNameLe) ∧
    (db.topics = [] → (getAllTopics db).1 = ⟨200, .topicList []⟩) := by
  constructor
  · exact ⟨rfl, rfl, List.insertionSort topicNameLe db.topics, rfl,
      List.perm_insertionSort topicNameLe db.topics,
      List.sorted_insertionSort topicNameLe db.topics⟩
  · intro h
    unfold getAllTopics
    rw [h]
    rfl

theorem getAllTopics_sorted_witness :
    (getAllTopics initDB).1 = ⟨200, .topicList []⟩ :=
  (getAllTopics_sorted initDB).2 rfl

/-- C7: listing all news answers 200 with the news rows ordered by
`created_at` descending; listing news by topic answers 200 with exactly
the rows of that `topic_id` in the same order, and an unknown topic id
yields the empty list rather than an error. -/
theorem news_listing_order :
    (∀ db : DB, (getAllNews db).1.status = 200 ∧
      ∃ l, (getAllNews db).1.body = .newsList l ∧
        l.Perm db.news ∧ l.Sorted newsCreatedGe) ∧
    (∀ (db : DB) (id : String) (tid : Nat), parseNat id = some tid →
      (getNewsByTopic db id).1.status = 200 ∧
      ∃ l, (getNewsByTopic db id).1.body = .newsList l ∧
        l.Perm (db.news.filter (fun n => n.topic_id == tid)) ∧
        l.Sorted newsCreatedGe) ∧
    (∀ (db : DB) (id : String) (tid : Nat), parseNat id = some tid →
      (∀ n ∈ db.news, n.topic_id ≠ tid) →
      (getNewsByTopic db id).1 = ⟨200, .newsList []⟩) := by
  refine ⟨?_, ?_, ?_⟩
  · intro db
    exact ⟨rfl, List.insertionSort newsCreatedGe db.news, rfl,
      List.perm_insertionSort newsCreatedGe db.news,
      List.sorted_insertionSort newsCreatedGe db.news⟩
  · intro db id tid hid
    have hfilter : db.news.filter (fun n => idMatches id n.topic_id)
        = db.news.filter (fun n => n.topic_id == tid) := by
      refine List.filter_congr (fun n hn => ?_)
      by_cases h : n.topic_id = tid
      · simp [idMatches, hid, h]
      · simp [idMatches, hid, h, Ne.symm h]
    refine ⟨rfl, List.insertionSort newsCreatedGe
        (db.news.filter (fun n => idMatches id n.topic_id)), rfl, ?_, ?_⟩
    · rw [hfilter]
      exact List.perm_insertionSort newsCreatedGe _
    · exact List.sorted_insertionSort newsCreatedGe _
  · intro db id tid hid hne
    have hfilter : db.news.filter (fun n => idMatches id n.topic_id) = [] := by
      refine List.filter_eq_nil_iff.mpr (fun n hn => ?_)
      simp [idMatches, hid, Ne.symm (hne n hn)]
    unfold getNewsByTopic
    rw [hfilter]
    rfl

theorem news_listing_order_witness :
    (getNewsByTopic ⟨[], [⟨1, "A", "B", 2, 0, 0⟩], 1, 2, 0⟩ "1").1.status = 200 ∧
    (getNewsByTopic ⟨[], [⟨1, "A", "B", 2, 0, 0⟩], 1, 2, 0⟩ "1").1 =
      ⟨200, .newsList []⟩ :=
  ⟨(news_listing_order.2.1 _ "1" 1 (by decide)).1,
   news_listing_order.2.2 _ "1" 1 (by decide) (by decide)⟩

/-- C8: a successful create-topic answers 201 with the full resource,
its id freshly generated from the serial counter, and both timestamps
stamped to the same current server time, so `created_at = updated_at`. -/
theorem createTopic_success (db : DB) (name description : String)
    (hname : name ≠ "") (hfresh : ∀ t ∈ db.topics, t.name ≠ name) :
    createTopic db name description =
      (⟨201, .topic ⟨db.nextTopicId, name, description, db.now, db.now⟩⟩,
       { db with
          topics := db.topics ++ [⟨db.nextTopicId, name, description, db.now, db.now⟩],
          nextTopicId := db.nextTopicId + 1 }) ∧
    (⟨db.nextTopicId, name, description, db.now, db.now⟩ : Topic).created_at =
      (⟨db.nextTopicId, name, description, db.now, db.now⟩ : Topic).updated_at := by
  have hany : db.topics.any (fun t => t.name == name) = false := by
    rw [List.any_eq_false]
    intro t ht
    simpa using hfresh t ht
  constructor
  · unfold createTopic
    rw [beq_eq_false_iff_ne.mpr hname, hany]
    rfl
  · rfl

theorem createTopic_success_witness :
    createTopic initDB "Tech" "D" =
      (⟨201, .topic ⟨1, "Tech", "D", 0, 0⟩⟩, ⟨[⟨1, "Tech", "D", 0, 0⟩], [], 2, 1, 0⟩) ∧
    (⟨1, "Tech", "D", 0, 0⟩ : Topic).created_at =
      (⟨1, "Tech", "D", 0, 0⟩ : Topic).updated_at :=
  createTopic_success initDB "Tech" "D" (by decide) (by decide)

lemma updateTopic_matched {db : DB} {id name description : String}
    (hname : name ≠ "") {t0 : Topic} (ht0 : t0 ∈ db.topics)
    (hmatch : idMatches id t0.id = true) :
    ∃ t2, updateTopic db id name description =
      (⟨200, .topic t2⟩,
       { db with topics := db.topics.map (fun t =>
          if idMatches id t.id then
            { t with name := name, description := description, updated_at := db.now }
          else t) }) ∧
      t2 ∈ db.topics.map (fun t =>
          if idMatches id t.id then
            { t with name := name, description := description, updated_at := db.now }
          else t) ∧
      idMatches id t2.id = true := by
  have hb := beq_eq_false_iff_ne.mpr hname
  have hcount := countP_bne_zero (p := fun t => idMatches id t.id) ht0 hmatch
  have hmem : (if idMatches id t0.id then
      { t0 with name := name, description := description, updated_at := db.now }
    else t0) ∈ db.topics.map (fun t =>
      if idMatches id t.id then
        { t with name := name, description := description, updated_at := db.now }
      else t) := List.mem_map_of_mem _ ht0
  rw [if_pos hmatch] at hmem
  have hp : idMatches id
      ({ t0 with name := name, description := description,
                 updated_at := db.now } : Topic).id = true := hmatch
  have hsome : (db.topics.map (fun t =>
      if idMatches id t.id then
        { t with name := name, description := description, updated_at := db.now }
      else t)).find? (fun t => idMatches id t.id) |>.isSome :=
    List.find?_isSome.mpr ⟨_, hmem, hp⟩
  obtain ⟨t2, ht2⟩ := Option.isSome_iff_exists.mp hsome
  refine ⟨t2, ?_, List.mem_of_find?_eq_some ht2, by simpa using List.find?_some ht2⟩
  unfold updateTopic
  rw [hb]
  dsimp only
  rw [hcount, ht2]
  rfl

/-- C9: update-topic with a non-empty name answers 404 and changes nothing
when no row matches the id; otherwise it answers 200 with the re-read
updated row, keeping every row's id and `created_at` while re-stamping
`updated_at` to the current time, which is at least the row's original
`created_at`. -/
theorem updateTopic_spec (db : DB) (id name description : String)
    (hname : name ≠ "") :
    ((∀ t ∈ db.topics, ¬ idMatches id t.id) →
      updateTopic db id name description = (⟨404, .message "Topic not found"⟩, db)) ∧
    (Reachable db → ∀ t0 ∈ db.topics, idMatches id t0.id = true →
      (updateTopic db id name description).1.status = 200 ∧
      (∀ t ∈ db.topics, ∃ t2 ∈ (updateTopic db id name description).2.topics,
        t2.id = t.id ∧ t2.created_at = t.created_at) ∧
      (∃ t2, (updateTopic db id name description).1.body = .topic t2 ∧
        t2.name = name ∧ t2.updated_at = db.now ∧
        ∃ orig ∈ db.topics, t2.id = orig.id ∧ t2.created_at = orig.created_at ∧
          orig.created_at ≤ t2.updated_at)) := by
  constructor
  · intro h
    have hcount : db.topics.countP (fun t => idMatches id t.id) = 0 :=
      List.countP_eq_zero.mpr (by simpa using h)
    unfold updateTopic
    rw [beq_eq_false_iff_ne.mpr hname]
    dsimp only
    rw [hcount]
    rfl
  · intro hreach t0 ht0 hmatch
    obtain ⟨t2, heq, hmem, hmatch2⟩ := updateTopic_matched hname ht0 hmatch
    rw [heq]
    refine ⟨rfl, ?_, ?_⟩
    · intro t ht
      refine ⟨if idMatches id t.id then
          { t with name := name, description := description, updated_at := db.now }
        else t, List.mem_map_of_mem _ ht, ?_⟩
      by_cases h : idMatches id t.id <;> simp [h]
    · rcases List.mem_map.mp hmem with ⟨orig, horig, hf⟩
      by_cases h : idMatches id orig.id
      · rw [if_pos h] at hf
        subst hf
        exact ⟨_, rfl, rfl, rfl, orig, horig, rfl, rfl,
          ((reachable_inv hreach).2.1 orig horig).1⟩
      · rw [if_neg h] at hf
        subst hf
        exact absurd hmatch2 h

theorem updateTopic_spec_witness :
    updateTopic initDB "5" "X" "" = (⟨404, .message "Topic not found"⟩, initDB) ∧
    (updateTopic (createTopic initDB "T" "").2 "1" "U" "D").1.status = 200 := by
  constructor
  · exact (updateTopic_spec initDB "5" "X" "" (by decide)).1 (by decide)
  · exact ((updateTopic_spec (createTopic initDB "T" "").2 "1" "U" "D"
      (by decide)).2
      (Reachable.step Reachable.init (Step.topicCreate initDB "T" ""))
      ⟨1, "T", "", 0, 0⟩ (by decide) (by decide)).1

/-- C10: in update-topic and update-news the payload validation (and, for
news, the topic-existence check) runs before the target-row lookup: an
empty required field, or an unknown news `topic_id`, draws 400 whether or
not the target id matches a row, and a 404 answer is only possible for a
request that passed every validation. -/
theorem update_validation_before_existence :
    (∀ (db : DB) (id description : String),
      updateTopic db id "" description =
        (⟨400, .message "Topic name is required"⟩, db)) ∧
    (∀ (db : DB) (id title content : String) (tid : Nat),
      title = "" ∨ content = "" →
      updateNews db id title content tid =
        (⟨400, .message "Title and content are required"⟩, db)) ∧
    (∀ (db : DB) (id title content : String) (tid : Nat),
      topicExists db tid = false → title ≠ "" → content ≠ "" →
      updateNews db id title content tid =
        (⟨400, .message "Topic does not exist"⟩, db)) ∧
    (∀ (db : DB) (id name description : String),
      (updateTopic db id name description).1.status = 404 → name ≠ "") ∧
    (∀ (db : DB) (id title content : String) (tid : Nat),
      (updateNews db id title content tid).1.status = 404 →
      title ≠ "" ∧ content ≠ "" ∧ topicExists db tid = true) := by
  refine ⟨fun db id description => rfl, ?_, ?_, ?_, ?_⟩
  · intro db id title content tid h
    unfold updateNews
    rcases h with h | h <;> subst h <;> simp
  · intro db id title content tid hex ht hc
    unfold updateNews
    rw [beq_eq_false_iff_ne.mpr ht, beq_eq_false_iff_ne.mpr hc, hex]
    rfl
  · intro db id name description h404 heq
    subst heq
    have h400 : (updateTopic db id "" description).1.status = 400 := rfl
    rw [h400] at h404
    exact absurd h404 (by decide)
  · intro db id title content tid h404
    unfold updateNews at h404
    split at h404
    · simp at h404
    next hcond =>
    split at h404
    · simp at h404
    next hex =>
    refine ⟨?_, ?_, ?_⟩
    · intro heq
      subst heq
      simp at hcond
    · intro heq
      subst heq
      simp at hcond
    · cases hx : topicExists db tid
      · rw [hx] at hex
        simp at hex
      · rfl

theorem update_validation_before_existence_witness :
    updateNews initDB "5" "" "C" 1 =
      (⟨400, .message "Title and content are required"⟩, initDB) ∧
    updateNews initDB "5" "T" "C" 1 =
      (⟨400, .message "Topic does not exist"⟩, initDB) ∧
    ("X" : String) ≠ "" ∧
    (("T" : String) ≠ "" ∧ ("C" : String) ≠ "" ∧
      topicExists (createTopic initDB "T" "").2 1 = true) := by
  refine ⟨?_, ?_, ?_, ?_⟩
  · exact update_validation_before_existence.2.1 initDB "5" "" "C" 1 (Or.inl rfl)
  · exact update_validation_before_existence.2.2.1 initDB "5" "T" "C" 1
      (by decide) (by decide) (by decide)
  · exact update_validation_before_existence.2.2.2.1 (createTopic initDB "T" "").2
      "5" "X" "" (by decide)
  · exact update_validation_before_existence.2.2.2.2 (createTopic initDB "T" "").2
      "5" "T" "C" 1 (by decide)

end NewsApi
